import Mathlib

/-!
Shallow embedding of the JWT authentication gateway in `src/app/main.py`
(registration, login, token issuance/verification, and the authorization
gate), together with theorems settling the specification claims.

Conventions of the embedding:
* time is modelled as integer seconds since the epoch (`Time := Nat`);
* the in-memory database `fake_users_db` (a Python dict from username to a
  user record) is modelled as an association list `DB`;
* Python exceptions raised as `HTTPException(status_code, detail, headers)`
  become the `HTTPException` error value of an `Except`;
* third-party library behaviour (passlib bcrypt hashing, python-jose JWT
  encode/decode) is modelled abstractly, as documented at each definition.
-/

namespace QuantHive

/-- Time in whole seconds since the epoch (the granularity of JWT `exp`
timestamps). -/
abbrev Time := Nat

/-! ## Password hasher (passlib `CryptContext(schemes=["bcrypt"])`) -/

/-- An abstract password digest.  `bcrypt salt plain` stands for a
well-formed bcrypt digest of the plaintext `plain` under a random salt
(modelled by the `salt` parameter); `malformed raw` stands for any string
that passlib cannot identify as a digest of a known scheme. -/
inductive Digest where
  | bcrypt (salt : Nat) (plain : String)
  | malformed (raw : String)
deriving Repr, DecidableEq

/-- Modelled from documented passlib behaviour: `pwd_context.hash(plain)`
produces a fresh bcrypt digest embedding a random salt. -/
def pwd_context_hash (salt : Nat) (plain : String) : Digest :=
  Digest.bcrypt salt plain

/-- Modelled from documented passlib behaviour: `pwd_context.verify(plain, h)`
returns a boolean for a digest of a recognised scheme, and raises
`passlib.exc.UnknownHashError` (a `ValueError`) when the digest cannot be
identified.  The raised exception is the `Except.error` branch. -/
def pwd_context_verify (plain : String) (hashed : Digest) : Except String Bool :=
  match hashed with
  | Digest.bcrypt _ p => Except.ok (p == plain)
  | Digest.malformed _ => Except.error "UnknownHashError: hash could not be identified"

/-- `verify_password` from `src/app/main.py` lines 103-104: it forwards
directly to `pwd_context.verify`, catching nothing. -/
def verify_password (plain_password : String) (hashed_password : Digest) :
    Except String Bool :=
  pwd_context_verify plain_password hashed_password

/-! ## Token service (python-jose `jwt.encode` / `jwt.decode`) -/

/-- The server's signing secret (`SECRET_KEY` in `main.py`, loaded from the
environment and checked non-empty at startup; its concrete value is
irrelevant to the claims). -/
def SECRET_KEY : String := "server-held-secret"

/-- `ACCESS_TOKEN_EXPIRE_MINUTES = 30`, `src/app/main.py` line 33. -/
def ACCESS_TOKEN_EXPIRE_MINUTES : Nat := 30

/-- The claims carried by a token in this application: the optional `sub`
claim (`none` models both an absent `"sub"` key and an explicit JSON null,
since Python's `payload.get("sub")` returns `None` for either) and the
`exp` timestamp in seconds. -/
structure JWTPayload where
  sub : Option String
  exp : Time
deriving Repr, DecidableEq

/-- A bearer token string, abstractly.  `jwt signingKey payload` stands for
a well-formed JWT whose signature was produced with `signingKey`;
`garbage raw` stands for any string that is not a structurally valid JWT. -/
inductive Token where
  | jwt (signingKey : String) (payload : JWTPayload)
  | garbage (raw : String)
deriving Repr, DecidableEq

/-- The distinct failure causes inside jose's `jwt.decode`; all of them are
subclasses of `JWTError` and the application code never inspects which one
occurred. -/
inductive JWTError where
  | decodeError
  | signatureError
  | expiredSignature
deriving Repr, DecidableEq

/-- jose `jwt.encode(claims, key, algorithm)`: signs the claims with `key`. -/
def jwt_encode (payload : JWTPayload) (key : String) : Token :=
  Token.jwt key payload

/-- Modelled from the spec: jose `jwt.decode(token, key, algorithms)` (the
library's code is not part of this repository).  Per the spec's token
invariant, decoding succeeds iff the token's signature verifies under `key`
and its expiry is strictly in the future; structurally invalid tokens,
wrong-key signatures and expired tokens each raise a `JWTError`. -/
def jwt_decode (t : Token) (key : String) (now : Time) : Except JWTError JWTPayload :=
  match t with
  | Token.garbage _ => Except.error JWTError.decodeError
  | Token.jwt k p =>
    if k ≠ key then Except.error JWTError.signatureError
    else if p.exp ≤ now then Except.error JWTError.expiredSignature
    else Except.ok p

/-- `create_access_token` from `src/app/main.py` lines 106-114.  The `data`
dict is always `{"sub": username}` in this application, so it is modelled
by its optional `sub` entry.  `expires_delta` is in seconds; Python's
`if expires_delta:` is falsy both for `None` and for a zero timedelta. -/
def create_access_token (data_sub : Option String) (now : Time)
    (expires_delta : Option Nat) : Token :=
  let expire :=
    match expires_delta with
    | some d => if d ≠ 0 then now + d else now + 15 * 60
    | none => now + 15 * 60
  jwt_encode { sub := data_sub, exp := expire } SECRET_KEY

/-! ## Credential store and user models -/

/-- `UserInDB` from `src/app/main.py` lines 73-74: the stored record,
including the password digest.  Registration always fills every field, but
test fixtures may store records directly, so the optional fields stay
optional as in the pydantic model. -/
structure UserInDB where
  username : String
  hashed_password : Digest
  email : Option String
  full_name : Option String
  disabled : Option Bool
deriving Repr, DecidableEq

/-- `User` from `src/app/main.py` lines 67-71: the public view, which has
no password digest field at all. -/
structure User where
  username : String
  email : Option String
  full_name : Option String
  disabled : Option Bool
deriving Repr, DecidableEq

/-- `fake_users_db`: a dict from username to stored record. -/
abbrev DB := List (String × UserInDB)

/-- `get_user` from `src/app/main.py` lines 97-101. -/
def get_user (db : DB) (username : String) : Option UserInDB :=
  db.lookup username

/-- Building the pydantic `User(**user_data)` view from a stored record:
pydantic ignores the extra `hashed_password` key, so the digest is dropped.
The `response_model=User` filter on `/users/me/` performs the same
projection. -/
def toPublicUser (u : UserInDB) : User :=
  { username := u.username
    email := u.email
    full_name := u.full_name
    disabled := u.disabled }

/-! ## HTTP errors -/

/-- A FastAPI `HTTPException`: status code, detail message and the optional
`WWW-Authenticate` header. -/
structure HTTPException where
  status_code : Nat
  detail : String
  www_authenticate : Option String
deriving Repr, DecidableEq

/-- The single `credentials_exception` of `get_current_user`,
`src/app/main.py` lines 117-121. -/
def credentials_exception : HTTPException :=
  { status_code := 401
    detail := "Could not validate credentials"
    www_authenticate := some "Bearer" }

/-! ## Authorization gate -/

/-- `get_current_user` from `src/app/main.py` lines 116-134: decode the
token (any `JWTError` is caught and collapsed into the one
`credentials_exception`), reject a missing `sub` claim, then resolve the
subject in the store, rejecting an unknown username with the very same
exception. -/
def get_current_user (db : DB) (token : Token) (now : Time) :
    Except HTTPException UserInDB :=
  match jwt_decode token SECRET_KEY now with
  | Except.error _ => Except.error credentials_exception
  | Except.ok payload =>
    match payload.sub with
    | none => Except.error credentials_exception
    | some username =>
      match get_user db username with
      | none => Except.error credentials_exception
      | some user => Except.ok user

/-- `get_current_active_user` from `src/app/main.py` lines 136-139.
Python's `if current_user.disabled:` is truthy only for `True` (the field
is `Optional[bool]`, and `None` is falsy). -/
def get_current_active_user (db : DB) (token : Token) (now : Time) :
    Except HTTPException UserInDB :=
  match get_current_user db token now with
  | Except.error e => Except.error e
  | Except.ok current_user =>
    if current_user.disabled = some true then
      Except.error { status_code := 400, detail := "Inactive user", www_authenticate := none }
    else Except.ok current_user

/-- `read_users_me` from `src/app/main.py` lines 244-246: the handler body
returns the resolved user, filtered through `response_model=User`. -/
def read_users_me (db : DB) (token : Token) (now : Time) :
    Except HTTPException User :=
  Except.map toPublicUser (get_current_active_user db token now)

/-! ## Registration and login -/

/-- `UserRegister` from `src/app/main.py` lines 83-87. -/
structure UserRegister where
  username : String
  password : String
  email : Option String
  full_name : Option String
deriving Repr, DecidableEq

/-- `UserLogin` from `src/app/main.py` lines 89-91. -/
structure UserLogin where
  username : String
  password : String
deriving Repr, DecidableEq

/-- The `Token` response model from `src/app/main.py` lines 76-78. -/
structure TokenResponse where
  access_token : Token
  token_type : String
deriving Repr, DecidableEq

/-- Python's `str.title()` for the ASCII usernames in play: an alphabetic
character is uppercased after a non-alphabetic (or initial) position and
lowercased otherwise. -/
def py_title_go : Bool → List Char → List Char
  | _, [] => []
  | prevAlpha, c :: cs =>
    let c2 := if c.isAlpha then (if prevAlpha then c.toLower else c.toUpper) else c
    c2 :: py_title_go c.isAlpha cs

/-- Python `s.title()`. -/
def py_title (s : String) : String :=
  String.mk (py_title_go false s.data)

/-- `register_user` from `src/app/main.py` lines 209-225.  The duplicate
check happens before any mutation; on success the record is stored and the
public `User(**user_data)` view returned.  Python's
`x if x else default` defaults both a missing and an empty-string value.
The returned `DB` is the post-call store (unchanged on failure). -/
def register_user (db : DB) (salt : Nat) (user_data_in : UserRegister) :
    DB × Except HTTPException User :=
  if (db.lookup user_data_in.username).isSome then
    (db, Except.error { status_code := 400
                        detail := "Username already registered"
                        www_authenticate := none })
  else
    let hashed_password := pwd_context_hash salt user_data_in.password
    let email :=
      match user_data_in.email with
      | some e => if e = "" then user_data_in.username ++ "@example.com" else e
      | none => user_data_in.username ++ "@example.com"
    let full_name :=
      match user_data_in.full_name with
      | some f => if f = "" then py_title user_data_in.username else f
      | none => py_title user_data_in.username
    let record : UserInDB :=
      { username := user_data_in.username
        hashed_password := hashed_password
        email := some email
        full_name := some full_name
        disabled := some false }
    ((user_data_in.username, record) :: db, Except.ok (toPublicUser record))

/-- The 401 raised by `login_for_access_token` on bad credentials,
`src/app/main.py` lines 232-236. -/
def incorrect_credentials : HTTPException :=
  { status_code := 401
    detail := "Incorrect username or password"
    www_authenticate := some "Bearer" }

/-- `login_for_access_token` from `src/app/main.py` lines 228-241.  The
outer `Except String` models an uncaught Python exception escaping the
handler (nothing in the handler catches one); the inner value is the HTTP
outcome.  `not user or not verify_password(...)` short-circuits, so the
hasher is never consulted for an unknown username. -/
def login_for_access_token (db : DB) (user_login : UserLogin) (now : Time) :
    Except String (Except HTTPException TokenResponse) :=
  match get_user db user_login.username with
  | none => Except.ok (Except.error incorrect_credentials)
  | some user =>
    match verify_password user_login.password user.hashed_password with
    | Except.error e => Except.error e
    | Except.ok b =>
      if b then
        Except.ok (Except.ok
          { access_token :=
              create_access_token (some user.username) now
                (some (ACCESS_TOKEN_EXPIRE_MINUTES * 60))
            token_type := "bearer" })
      else Except.ok (Except.error incorrect_credentials)

/-! ## Claim theorems -/

/-- C1: token verification succeeds (yielding the payload, hence the
subject) iff the token is signed with the server's secret and its expiry
is strictly in the future; and whenever verification fails for any reason
(structurally invalid, bad signature, or expired), `get_current_user`
raises the one fixed `credentials_exception` (401, "Could not validate
credentials"), so callers cannot tell the failure causes apart. -/
theorem token_valid_iff_signed_and_unexpired (db : DB) (t : Token) (now : Time) :
    ((∃ p, jwt_decode t SECRET_KEY now = Except.ok p) ↔
      (∃ p, t = Token.jwt SECRET_KEY p ∧ now < p.exp)) ∧
    (∀ e, jwt_decode t SECRET_KEY now = Except.error e →
      get_current_user db t now = Except.error credentials_exception) := by
  constructor
  · constructor
    · rintro ⟨p, hp⟩
      cases t with
      | garbage r => simp [jwt_decode] at hp
      | jwt k q =>
        by_cases hk : k = SECRET_KEY
        · subst hk
          by_cases he : q.exp ≤ now
          · simp [jwt_decode, he] at hp
          · exact ⟨q, rfl, Nat.lt_of_not_le he⟩
        · simp [jwt_decode, hk] at hp
    · rintro ⟨p, rfl, hlt⟩
      exact ⟨p, by simp [jwt_decode, Nat.not_le.mpr hlt]⟩
  · intro e he
    simp [get_current_user, he]

/-- Witness for C1: the opaque-failure branch applied to a concrete
structurally invalid token against the empty store. -/
theorem token_valid_iff_signed_and_unexpired_concrete :
    get_current_user [] (Token.garbage "not.a.real.token") 0 =
      Except.error credentials_exception :=
  (token_valid_iff_signed_and_unexpired [] (Token.garbage "not.a.real.token") 0).2
    JWTError.decodeError rfl

/-- C2: when the username is absent from the store or when password
verification against the stored digest returns false, login yields the
same 401 with detail "Incorrect username or password" and header
`WWW-Authenticate: Bearer`, and no token is issued. -/
theorem login_failure_opaque (db : DB) (ul : UserLogin) (now : Time)
    (h : get_user db ul.username = none ∨
      ∃ u, get_user db ul.username = some u ∧
        verify_password ul.password u.hashed_password = Except.ok false) :
    login_for_access_token db ul now = Except.ok (Except.error
      { status_code := 401
        detail := "Incorrect username or password"
        www_authenticate := some "Bearer" }) := by
  rcases h with h | ⟨u, hu, hv⟩
  · simp [login_for_access_token, h, incorrect_credentials]
  · simp [login_for_access_token, hu, hv, incorrect_credentials]

/-- Witness for C2: login for a username absent from the empty store. -/
theorem login_failure_opaque_concrete :
    login_for_access_token [] { username := "alice", password := "secret123" } 0 =
      Except.ok (Except.error
        { status_code := 401
          detail := "Incorrect username or password"
          www_authenticate := some "Bearer" }) :=
  login_failure_opaque [] { username := "alice", password := "secret123" } 0 (Or.inl rfl)

/-- C3: registering a username that is already present fails with 400
"Username already registered" and leaves the store — in particular the
existing record under that username — exactly as it was. -/
theorem duplicate_register_no_mutation (db : DB) (salt : Nat) (inp : UserRegister)
    (h : (db.lookup inp.username).isSome = true) :
    (register_user db salt inp).1 = db ∧
    (register_user db salt inp).2 = Except.error
      { status_code := 400
        detail := "Username already registered"
        www_authenticate := none } ∧
    (register_user db salt inp).1.lookup inp.username = db.lookup inp.username := by
  refine ⟨?_, ?_, ?_⟩ <;> simp [register_user, h]

/-- A stored record as the test fixtures build it, used by concrete
witnesses. -/
def fixtureRec (username password : String) (disabled : Bool) : UserInDB :=
  { username := username
    hashed_password := Digest.bcrypt 0 password
    email := some (username ++ "@example.com")
    full_name := some (py_title username)
    disabled := some disabled }

/-- Witness for C3: a second registration of "bob" against a store already
holding "bob". -/
theorem duplicate_register_no_mutation_concrete :
    (register_user [("bob", fixtureRec "bob" "pw" false)] 0
        { username := "bob", password := "other", email := none, full_name := none }).1 =
      [("bob", fixtureRec "bob" "pw" false)] ∧
    (register_user [("bob", fixtureRec "bob" "pw" false)] 0
        { username := "bob", password := "other", email := none, full_name := none }).2 =
      Except.error
        { status_code := 400
          detail := "Username already registered"
          www_authenticate := none } ∧
    (register_user [("bob", fixtureRec "bob" "pw" false)] 0
        { username := "bob", password := "other", email := none, full_name := none }).1.lookup
        "bob" =
      List.lookup "bob" [("bob", fixtureRec "bob" "pw" false)] :=
  duplicate_register_no_mutation [("bob", fixtureRec "bob" "pw" false)] 0
    { username := "bob", password := "other", email := none, full_name := none } rfl

/-- C4: whenever the authorization gate resolves a token to a user whose
`disabled` flag is true, `get_current_active_user` raises 400 "Inactive
user" and never yields the user, so no protected handler body runs. -/
theorem disabled_user_rejected (db : DB) (t : Token) (now : Time) (u : UserInDB)
    (hok : get_current_user db t now = Except.ok u) (hdis : u.disabled = some true) :
    get_current_active_user db t now = Except.error
      { status_code := 400, detail := "Inactive user", www_authenticate := none } ∧
    ∀ v, get_current_active_user db t now ≠ Except.ok v := by
  constructor
  · simp [get_current_active_user, hok, hdis]
  · intro v hv
    simp [get_current_active_user, hok, hdis] at hv

/-- Witness for C4: a disabled fixture user presented with a correctly
signed, unexpired token. -/
theorem disabled_user_rejected_concrete :
    get_current_active_user [("dave", fixtureRec "dave" "pw" true)]
        (Token.jwt SECRET_KEY { sub := some "dave", exp := 1800 }) 0 =
      Except.error
        { status_code := 400, detail := "Inactive user", www_authenticate := none } ∧
    ∀ v,
      get_current_active_user [("dave", fixtureRec "dave" "pw" true)]
          (Token.jwt SECRET_KEY { sub := some "dave", exp := 1800 }) 0 ≠
        Except.ok v :=
  disabled_user_rejected [("dave", fixtureRec "dave" "pw" true)]
    (Token.jwt SECRET_KEY { sub := some "dave", exp := 1800 }) 0
    (fixtureRec "dave" "pw" true) rfl rfl

/-- C5: a correctly signed, unexpired token whose subject is not in the
store is rejected by `get_current_user` with the very same
`credentials_exception` that an invalid token produces — no crash, no
distinguishable outcome. -/
theorem unknown_subject_opaque (db : DB) (p : JWTPayload) (now : Time) (username : String)
    (hsub : p.sub = some username) (hexp : now < p.exp)
    (habs : get_user db username = none) :
    get_current_user db (Token.jwt SECRET_KEY p) now = Except.error credentials_exception ∧
    get_current_user db (Token.garbage "forged") now = Except.error credentials_exception := by
  constructor
  · simp [get_current_user, jwt_decode, Nat.not_le.mpr hexp, hsub, habs]
  · rfl

/-- Witness for C5: a token signed for "ghost" against the empty store. -/
theorem unknown_subject_opaque_concrete :
    get_current_user [] (Token.jwt SECRET_KEY { sub := some "ghost", exp := 1800 }) 0 =
      Except.error credentials_exception ∧
    get_current_user [] (Token.garbage "forged") 0 = Except.error credentials_exception :=
  unknown_subject_opaque [] { sub := some "ghost", exp := 1800 } 0 "ghost" rfl
    (by decide) rfl

/-- C6: a successful registration stores a record whose email defaults to
`username ++ "@example.com"` when the request omitted an email, whose
full name defaults to the title-cased username when omitted, and returns
exactly the public projection of that record; and the public projection is
independent of the password digest, so no public view can contain it. -/
theorem register_defaults_and_hash_hidden (db : DB) (salt : Nat) (inp : UserRegister)
    (habs : db.lookup inp.username = none) :
    ∃ rec : UserInDB,
      (register_user db salt inp).1.lookup inp.username = some rec ∧
      (register_user db salt inp).2 = Except.ok (toPublicUser rec) ∧
      (inp.email = none → rec.email = some (inp.username ++ "@example.com")) ∧
      (inp.full_name = none → rec.full_name = some (py_title inp.username)) ∧
      ∀ (w : UserInDB) (d1 d2 : Digest),
        toPublicUser { w with hashed_password := d1 } =
          toPublicUser { w with hashed_password := d2 } := by
  refine ⟨{ username := inp.username
            hashed_password := pwd_context_hash salt inp.password
            email := some (match inp.email with
              | some e => if e = "" then inp.username ++ "@example.com" else e
              | none => inp.username ++ "@example.com")
            full_name := some (match inp.full_name with
              | some f => if f = "" then py_title inp.username else f
              | none => py_title inp.username)
            disabled := some false }, ?_, ?_, ?_, ?_, ?_⟩
  · simp [register_user, habs, List.lookup]
  · simp [register_user, habs]
  · intro h
    simp [h]
  · intro h
    simp [h]
  · intro w d1 d2
    rfl

/-- Witness for C6: registering "alice" with no email and no full name
against the empty store. -/
theorem register_defaults_and_hash_hidden_concrete :
    ∃ rec : UserInDB,
      (register_user [] 0
          { username := "alice", password := "secret123"
            email := none, full_name := none }).1.lookup "alice" = some rec ∧
      (register_user [] 0
          { username := "alice", password := "secret123"
            email := none, full_name := none }).2 = Except.ok (toPublicUser rec) ∧
      ((none : Option String) = none → rec.email = some ("alice" ++ "@example.com")) ∧
      ((none : Option String) = none → rec.full_name = some (py_title "alice")) ∧
      ∀ (w : UserInDB) (d1 d2 : Digest),
        toPublicUser { w with hashed_password := d1 } =
          toPublicUser { w with hashed_password := d2 } :=
  register_defaults_and_hash_hidden [] 0
    { username := "alice", password := "secret123", email := none, full_name := none } rfl

/-- C7 (code behaviour at the claim's failing input): `verify_password`
forwards a digest that passlib cannot identify straight to
`pwd_context.verify`, which raises `UnknownHashError` instead of
returning a boolean — the spec requires malformed digests to be treated
as verification failure, never a crash. -/
theorem verify_password_raises_on_malformed :
    verify_password "secret123" (Digest.malformed "not-a-hash") =
      Except.error "UnknownHashError: hash could not be identified" := rfl

/-- C8: starting from a store without `username`, registering and then
logging in with the same credentials succeeds, and the issued token decodes
(under the server's secret, while unexpired) to a payload whose subject is
that username. -/
theorem register_then_login_subject (db : DB) (salt : Nat) (username password : String)
    (t : Time) (habs : db.lookup username = none) :
    ∃ db2 view,
      register_user db salt
          { username := username, password := password
            email := none, full_name := none } = (db2, Except.ok view) ∧
      ∃ tok,
        login_for_access_token db2 { username := username, password := password } t =
          Except.ok (Except.ok { access_token := tok, token_type := "bearer" }) ∧
        ∃ p, jwt_decode tok SECRET_KEY t = Except.ok p ∧ p.sub = some username := by
  refine ⟨(username,
      { username := username
        hashed_password := Digest.bcrypt salt password
        email := some (username ++ "@example.com")
        full_name := some (py_title username)
        disabled := some false }) :: db,
    { username := username
      email := some (username ++ "@example.com")
      full_name := some (py_title username)
      disabled := some false }, ?_, ?_⟩
  · simp [register_user, habs, pwd_context_hash, toPublicUser]
  · refine ⟨Token.jwt SECRET_KEY
      { sub := some username, exp := t + ACCESS_TOKEN_EXPIRE_MINUTES * 60 }, ?_, ?_⟩
    · simp [login_for_access_token, get_user, List.lookup, verify_password,
        pwd_context_verify, create_access_token, jwt_encode, ACCESS_TOKEN_EXPIRE_MINUTES]
    · refine ⟨{ sub := some username, exp := t + ACCESS_TOKEN_EXPIRE_MINUTES * 60 }, ?_, rfl⟩
      have hlt : ¬ (t + ACCESS_TOKEN_EXPIRE_MINUTES * 60 ≤ t) := by
        simp [ACCESS_TOKEN_EXPIRE_MINUTES]
      simp [jwt_decode, hlt]

/-- Witness for C8: register then login as "alice"/"secret123" from the
empty store. -/
theorem register_then_login_subject_concrete :
    ∃ db2 view,
      register_user [] 0
          { username := "alice", password := "secret123"
            email := none, full_name := none } = (db2, Except.ok view) ∧
      ∃ tok,
        login_for_access_token db2 { username := "alice", password := "secret123" } 0 =
          Except.ok (Except.ok { access_token := tok, token_type := "bearer" }) ∧
        ∃ p, jwt_decode tok SECRET_KEY 0 = Except.ok p ∧ p.sub = some "alice" :=
  register_then_login_subject [] 0 "alice" "secret123" 0 rfl

/-- C9: `create_access_token` without an `expires_delta` expires the token
15 minutes from now, while `ACCESS_TOKEN_EXPIRE_MINUTES` is 30; the login
endpoint always passes the delta explicitly, so every login-issued token
expires 30 minutes from the login time. -/
theorem default_ttl_fifteen_minutes (s : Option String) (now : Time) :
    create_access_token s now none =
      jwt_encode { sub := s, exp := now + 15 * 60 } SECRET_KEY ∧
    ACCESS_TOKEN_EXPIRE_MINUTES = 30 ∧
    ∀ (db : DB) (ul : UserLogin) (t : Time) (resp : TokenResponse),
      login_for_access_token db ul t = Except.ok (Except.ok resp) →
      ∃ p, resp.access_token = Token.jwt SECRET_KEY p ∧ p.exp = t + 30 * 60 := by
  refine ⟨rfl, rfl, ?_⟩
  intro db ul t resp h
  unfold login_for_access_token at h
  split at h
  · simp at h
  · rename_i user hu
    split at h
    · simp at h
    · rename_i b hv
      split at h
      · injection h with h1
        injection h1 with h2
        refine ⟨{ sub := some user.username, exp := t + 30 * 60 }, ?_, rfl⟩
        rw [← h2]
        rfl
      · simp at h

/-- Witness for C9: the default branch at a concrete subject and time,
and the post-login expiry for a concrete successful login. -/
theorem default_ttl_fifteen_minutes_concrete :
    create_access_token (some "alice") 0 none =
      jwt_encode { sub := some "alice", exp := 0 + 15 * 60 } SECRET_KEY ∧
    ∃ p,
      (TokenResponse.mk (Token.jwt SECRET_KEY { sub := some "alice", exp := 0 + 30 * 60 })
          "bearer").access_token = Token.jwt SECRET_KEY p ∧
      p.exp = 0 + 30 * 60 :=
  ⟨(default_ttl_fifteen_minutes (some "alice") 0).1,
   (default_ttl_fifteen_minutes (some "alice") 0).2.2
     [("alice", fixtureRec "alice" "pw" false)]
     { username := "alice", password := "pw" } 0
     (TokenResponse.mk (Token.jwt SECRET_KEY { sub := some "alice", exp := 0 + 30 * 60 })
       "bearer") rfl⟩

/-- C10: a correctly signed, unexpired token whose payload has no subject
claim (covering both a missing `"sub"` key and an explicit null) is
rejected by `get_current_user` with the same fixed `credentials_exception`
that a token signed under a different key receives. -/
theorem missing_sub_rejected (db : DB) (p : JWTPayload) (now : Time) (k : String)
    (hsub : p.sub = none) (hexp : now < p.exp) (hk : k ≠ SECRET_KEY) :
    get_current_user db (Token.jwt SECRET_KEY p) now = Except.error credentials_exception ∧
    get_current_user db (Token.jwt k p) now = Except.error credentials_exception := by
  constructor
  · simp [get_current_user, jwt_decode, Nat.not_le.mpr hexp, hsub]
  · simp [get_current_user, jwt_decode, hk]

/-- Witness for C10: a sub-less unexpired payload and a forged key. -/
theorem missing_sub_rejected_concrete :
    get_current_user [] (Token.jwt SECRET_KEY { sub := none, exp := 1800 }) 0 =
      Except.error credentials_exception ∧
    get_current_user [] (Token.jwt "attacker-key" { sub := none, exp := 1800 }) 0 =
      Except.error credentials_exception :=
  missing_sub_rejected [] { sub := none, exp := 1800 } 0 "attacker-key" rfl
    (by decide) (by decide)

end QuantHive
